import Mathlib

/-!
Shallow embedding of the allele-compatibility toolkit core
(coordinate/genotype model, sample container, generic delimited parser,
comparative analyzers) and proofs of the frozen claims about it.

Machine floats (f32/f64) are modelled as exact rationals; all the numeric
facts proved here are insensitive to rounding at the inputs involved.
Unsigned 64-bit wraparound is made explicit (mod 2^64) where the source
can underflow.
-/

/-- Genotype classification, from src/types.rs. -/
inductive Genotype where
  | HomozygousReference
  | HomozygousAlternate
  | Heterozygous
  | HeterozygousAltAlt
  | NoCall
  | Partial
deriving DecidableEq, Repr

/-- Separator test used by the genotype token grammar: the source splits
on the characters slash and pipe. -/
def sepChar (c : Char) : Bool :=
  c = '/' || c = '|'

/-- Split a character list at every character satisfying p, keeping empty
chunks, exactly like the Rust str split iterator. -/
def split_on_pred (p : Char → Bool) : List Char → List (List Char)
  | [] => [[]]
  | c :: rest =>
    if p c then [] :: split_on_pred p rest
    else
      match split_on_pred p rest with
      | [] => [[c]]
      | g :: gs => (c :: g) :: gs

/-- Split a string on slash or pipe, as in Genotype::from_string. -/
def split_seps (s : String) : List String :=
  (split_on_pred sepChar s.data).map String.mk

/-- Genotype::from_string from src/types.rs lines 43-73: exact token
matches first, then the two-part fallback, then Partial for tokens with
no separator. -/
def Genotype.from_string (s : String) : Genotype :=
  if s = "0/0" ∨ s = "0|0" ∨ s = "AA" then .HomozygousReference
  else if s = "1/1" ∨ s = "1|1" ∨ s = "BB" then .HomozygousAlternate
  else if s = "0/1" ∨ s = "0|1" ∨ s = "1/0" ∨ s = "1|0" ∨ s = "AB" ∨ s = "BA" then
    .Heterozygous
  else if s = "./." ∨ s = ".|." ∨ s = "" then .NoCall
  else if s.data.any sepChar = true then
    match split_seps s with
    | [a, b] =>
      if a = b then
        if a = "0" then .HomozygousReference else .HomozygousAlternate
      else if a = "0" ∨ b = "0" then .Heterozygous
      else .HeterozygousAltAlt
    | _ => .NoCall
  else .Partial

/-- Genotype::is_homozygous from src/types.rs. -/
def Genotype.is_homozygous : Genotype → Bool
  | .HomozygousReference | .HomozygousAlternate => true
  | _ => false

/-- Genotype::is_compatible from src/types.rs lines 92-113: the match
arms in source order, with the final catch-all arm returning true. -/
def Genotype.is_compatible : Genotype → Genotype → Bool
  | .NoCall, _ => true
  | _, .NoCall => true
  | .HomozygousReference, .HomozygousReference => true
  | .HomozygousReference, .Heterozygous => true
  | .Heterozygous, .HomozygousReference => true
  | .HomozygousAlternate, .HomozygousAlternate => true
  | .HomozygousAlternate, .Heterozygous => true
  | .Heterozygous, .HomozygousAlternate => true
  | .Heterozygous, .Heterozygous => true
  | _, _ => true

/-- The tokens matched exactly by the leading arms of from_string. -/
def exact_tokens : List String :=
  ["0/0", "0|0", "AA", "1/1", "1|1", "BB",
   "0/1", "0|1", "1/0", "1|0", "AB", "BA",
   "./.", ".|.", ""]

/-- ASCII whitespace test, modelling the Rust str trim semantics for the
inputs that occur here. -/
def is_space (c : Char) : Bool :=
  c = ' ' || c = '\t' || c = '\n' || c = '\r'

/-- Trim leading and trailing whitespace, modelling Rust str::trim.
Defined over the character list so that it reduces definitionally. -/
def str_trim (s : String) : String :=
  String.mk (((s.data.dropWhile is_space).reverse.dropWhile is_space).reverse)

/-- Lower-case a string, modelling Rust str::to_lowercase on ASCII. -/
def str_lower (s : String) : String :=
  String.mk (s.data.map Char.toLower)

/-- Upper-case a string, modelling Rust str::to_uppercase on ASCII. -/
def str_upper (s : String) : String :=
  String.mk (s.data.map Char.toUpper)

/-- Drop the first n characters, modelling the prefix strip in
normalize_chromosome. -/
def str_drop (s : String) (n : ℕ) : String :=
  String.mk (s.data.drop n)

/-- Parse a non-empty all-digit string as a number, modelling the u64
FromStr parse used for the position column. -/
def str_to_nat? (s : String) : Option ℕ :=
  if s.data ≠ [] ∧ s.data.all Char.isDigit then
    some (s.data.foldl (fun n c => n * 10 + (c.toNat - 48)) 0)
  else none

/-- Organ types, from src/types.rs. -/
inductive OrganType where
  | Kidney
  | Liver
  | Heart
  | Lung
  | Pancreas
  | BoneMarrow
  | Cornea
  | Skin
deriving DecidableEq, Repr

/-- A single genetic variant, from src/types.rs. Float quality is modelled
as a rational; the info map as an association list. -/
structure Variant where
  chromosome : String
  position : ℕ
  rsid : Option String
  reference_allele : String
  alternate_alleles : List String
  genotype : Genotype
  quality : Option ℚ
  filter : Option String
  info : List (String × String)
deriving DecidableEq, Repr

/-- Genetic coordinate, from src/types.rs. -/
structure Coordinate where
  chromosome : String
  position : ℕ
deriving DecidableEq, Repr

/-- HLA typing resolution tiers, from src/types.rs. -/
inductive HLAResolution where
  | TwoDigit
  | FourDigit
  | SixDigit
  | EightDigit
  | Unknown
deriving DecidableEq, Repr

/-- HLA allele carrier, from src/types.rs. -/
structure HLAAllele where
  gene : String
  allele : String
  resolution : HLAResolution
  confidence : ℚ
deriving DecidableEq, Repr

/-- IBD segment, from src/types.rs. The source field named end is spelled
stop here because end is a Lean keyword. -/
structure IBDSegment where
  chromosome : String
  start : ℕ
  stop : ℕ
  length_cm : ℚ
  snp_count : ℕ
  start_position_bp : ℕ
  end_position_bp : ℕ
deriving DecidableEq, Repr

/-- Disease risk categories, from src/types.rs. -/
inductive RiskCategory where
  | High
  | Moderate
  | Low
  | Protective
  | Unknown
deriving DecidableEq, Repr

/-- Confidence levels, from src/types.rs. -/
inductive ConfidenceLevel where
  | Definitive
  | Likely
  | Uncertain
  | Unknown
deriving DecidableEq, Repr

/-- Disease risk variant, from src/types.rs. -/
structure DiseaseVariant where
  disease : String
  rsid : String
  chromosome : String
  position : ℕ
  risk_allele : String
  odds_ratio : Option ℚ
  risk_category : RiskCategory
  confidence : ConfidenceLevel
deriving DecidableEq, Repr

/-- HLA typing tally, from src/types.rs. -/
structure HLATypingResult where
  a_matches : ℕ
  b_matches : ℕ
  dr_matches : ℕ
  dq_matches : ℕ
  dp_matches : ℕ
  total_matches : ℕ
  mismatch_count : ℕ
deriving DecidableEq, Repr

/-- Crossmatch outcome categories, from src/types.rs. -/
inductive CrossmatchResult where
  | Compatible
  | Incompatible
  | RequiresFurtherTesting
  | Unknown
deriving DecidableEq, Repr

/-- Organ compatibility result record, from src/types.rs. -/
structure OrganCompatibilityResult where
  sample_id : String
  organ : String
  compatibility_score : ℚ
  hla_matches : HLATypingResult
  blood_type_compatible : Bool
  crossmatch_result : CrossmatchResult
  recommendations : List String
deriving DecidableEq, Repr

/-- Disease risk levels, from src/types.rs. -/
inductive RiskLevel where
  | VeryHigh
  | High
  | Moderate
  | Low
  | VeryLow
  | Unknown
deriving DecidableEq, Repr

/-- Disease risk result record, from src/types.rs. -/
structure DiseaseRiskResult where
  sample_id : String
  disease : String
  risk_level : RiskLevel
  risk_score : ℚ
  variants_found : List DiseaseVariant
  recommendations : List String
deriving DecidableEq, Repr

/-- HLA match result record, from src/types.rs. -/
structure HLAMatchResult where
  sample_id : String
  hla_a : List HLAAllele
  hla_b : List HLAAllele
  hla_c : List HLAAllele
  hla_drb1 : List HLAAllele
  hla_dqb1 : List HLAAllele
  hla_dpb1 : List HLAAllele
  match_score : ℚ
deriving DecidableEq, Repr

/-- Relationship prediction categories, from src/types.rs. -/
inductive RelationshipPrediction where
  | IdenticalTwin
  | ParentChild
  | FullSibling
  | HalfSibling
  | GrandparentGrandchild
  | AuntUncleNieceNephew
  | FirstCousin
  | FirstCousinOnceRemoved
  | SecondCousin
  | SecondCousinOnceRemoved
  | ThirdCousin
  | Distant
  | Unrelated
  | Unknown
deriving DecidableEq, Repr

/-- RelationshipPrediction::from_shared_cm from src/types.rs. -/
def RelationshipPrediction.from_shared_cm (total_cm : ℚ) : RelationshipPrediction :=
  if total_cm > 3400 then .IdenticalTwin
  else if total_cm > 3100 then .ParentChild
  else if total_cm > 2200 then .FullSibling
  else if total_cm > 1300 then .HalfSibling
  else if total_cm > 1150 then .GrandparentGrandchild
  else if total_cm > 800 then .AuntUncleNieceNephew
  else if total_cm > 400 then .FirstCousin
  else if total_cm > 200 then .FirstCousinOnceRemoved
  else if total_cm > 100 then .SecondCousin
  else if total_cm > 50 then .SecondCousinOnceRemoved
  else if total_cm > 30 then .ThirdCousin
  else if total_cm > 10 then .Distant
  else .Unrelated

/-- IBD detection result record, from src/types.rs. -/
structure IBDSegmentResult where
  sample_id : String
  total_shared_cm : ℚ
  segment_count : ℕ
  largest_segment_cm : ℚ
  segments : List IBDSegment
  predicted_relationship : RelationshipPrediction
  confidence : ℚ
deriving DecidableEq, Repr

/-- Clinical annotation record, from src/types.rs. -/
structure ClinicalAnnotation where
  drug : String
  implication : String
  recommendation : String
  evidence_level : String
deriving DecidableEq, Repr

/-- Pharmacogenomic result record, from src/types.rs. -/
structure PharmacogenomicResult where
  sample_id : String
  gene : String
  diplotype : String
  phenotype : String
  activity_score : ℚ
  clinical_annotations : List ClinicalAnnotation
deriving DecidableEq, Repr

/-- File formats, from src/types.rs. -/
inductive FileFormat where
  | VCF
  | BCF
  | BED
  | FASTA
  | FASTQ
  | AndMe
  | AncestryDNA
  | FTDNA
  | MyHeritage
  | PLINK
  | GVF
  | GFF
  | SAM
  | BAM
  | CRAM
  | GenBank
  | CSV
  | TSV
  | TXT
  | Unknown
deriving DecidableEq, Repr

/-- Sample metadata, from src/types.rs. -/
structure SampleMetadata where
  sample_id : String
  source_file : String
  file_format : FileFormat
  genome_build : String
  sequencing_platform : Option String
  call_rate : Option ℚ
  heterozygosity : Option ℚ
deriving DecidableEq, Repr

/-- Modelled from the spec: the Sample Container (ParsedGeneticData) is
declared in src/parsers/mod.rs, which is absent from the sources; only
its users are present. Per spec section 3 it holds a sample identifier
and metadata, a variant map keyed by Coordinate that preserves insertion
order with a last-write-wins overwrite policy, and a list of HLA
alleles. The variant map is modelled as an insertion-ordered association
list with unique keys. The post-parse quality metrics are omitted: no
claim mentions them. -/
structure ParsedGeneticData where
  metadata : SampleMetadata
  variants : List (Coordinate × Variant)
  hla_alleles : List HLAAllele
deriving DecidableEq, Repr

/-- Modelled from the spec: ParsedGeneticData::get_variant lives in the
absent src/parsers/mod.rs. Per spec section 3 the variant map is keyed
by Coordinate (chromosome, position), so lookup returns the variant
stored at that exact coordinate, if any. -/
def ParsedGeneticData.get_variant (d : ParsedGeneticData) (chromosome : String)
    (position : ℕ) : Option Variant :=
  (d.variants.find? fun cv =>
    cv.1.chromosome == chromosome && cv.1.position == position).map Prod.snd

/-- Modelled from the spec: ParsedGeneticData::add_variant lives in the
absent src/parsers/mod.rs. Per spec section 3 later records for the same
coordinate overwrite earlier ones (last-write-wins) while the map stays
keyed by coordinate. -/
def ParsedGeneticData.add_variant (d : ParsedGeneticData) (v : Variant) :
    ParsedGeneticData :=
  let key : Coordinate := ⟨v.chromosome, v.position⟩
  if d.variants.any (fun cv => cv.1 == key) then
    { d with variants := d.variants.map fun cv => if cv.1 == key then (key, v) else cv }
  else
    { d with variants := d.variants ++ [(key, v)] }

/-- Modelled from the spec: normalize_chromosome lives in the absent
src/parsers/mod.rs. Per spec section 4.1 it strips a chr prefix
case-insensitively, collapses to canonical (upper) casing, and unifies
mitochondrial aliases to one canonical token. -/
def normalize_chromosome (raw : String) : String :=
  let stripped :=
    if (str_lower raw).data.take 3 = "chr".data then str_drop raw 3 else raw
  let upper := str_upper stripped
  if upper = "M" ∨ upper = "MT" then "MT" else upper

/-- Modelled from the spec: parse_genotype lives in the absent
src/parsers/mod.rs. Per spec section 4.1 it applies the section 3
classification rules, except that a two-character allele pair in
consumer style (two letters, no separator) is classified directly: equal
characters are homozygous (reference when the character equals the
supplied reference allele, else alternate), unequal characters are
heterozygous. -/
def parse_genotype (raw : String) (reference : String)
    (_alternates : List String) : Genotype :=
  match raw.data with
  | [c1, c2] =>
    if c1.isAlpha && c2.isAlpha then
      if c1 = c2 then
        if String.mk [c1] = reference then .HomozygousReference
        else .HomozygousAlternate
      else .Heterozygous
    else Genotype.from_string raw
  | _ => Genotype.from_string raw

/-- Fail-fast collection of per-sample Results into one Result of a list,
as produced by the map-then-collect pattern every analyzer entry point in
src/analysis.rs uses. The source fans the map out over a worker pool but
guarantees input order in the output, so the sequential collection is
the observable behaviour. -/
def collect_results {β : Type} (f : ParsedGeneticData → Except String β) :
    List ParsedGeneticData → Except String (List β)
  | [] => .ok []
  | c :: rest =>
    match f c with
    | .error e => .error e
    | .ok r =>
      match collect_results f rest with
      | .error e => .error e
      | .ok rs => .ok (r :: rs)

/-- Format a similarity fraction as a percentage string. Abstracts the
Rust fixed-decimal float formatting in src/analysis.rs; no claim depends
on the exact digits. -/
def format_percent (q : ℚ) : String :=
  toString (100 * q) ++ "%"

/-- AlleleComparator::count_shared_variants from src/analysis.rs lines
81-101: count the patient variants whose coordinate also resolves in the
sample with a compatible genotype. -/
def AlleleComparator.count_shared_variants (patient sample : ParsedGeneticData) : ℕ :=
  (patient.variants.filter fun cv =>
    match sample.get_variant cv.1.chromosome cv.1.position with
    | some sample_variant => cv.2.genotype.is_compatible sample_variant.genotype
    | none => false).length

/-- AlleleComparator::compare_sample from src/analysis.rs lines 44-79.
The source body is infallible (always Ok); the record it builds is given
here and the Ok wrapping happens at the entry point. -/
def AlleleComparator.compare_sample (patient sample : ParsedGeneticData) :
    PharmacogenomicResult :=
  let shared_variants := AlleleComparator.count_shared_variants patient sample
  let total_variants := max patient.variants.length 1
  let similarity : ℚ := (shared_variants : ℚ) / (total_variants : ℚ)
  { sample_id := sample.metadata.sample_id
    gene := "MULTI"
    diplotype := format_percent similarity
    phenotype :=
      if similarity > 0.9 then "Extensive Metabolizer"
      else if similarity > 0.7 then "Intermediate Metabolizer"
      else "Poor Metabolizer"
    activity_score := similarity
    clinical_annotations :=
      [{ drug := "Multiple"
         implication := "Genetic similarity: " ++ format_percent similarity
         recommendation :=
           if similarity > 0.8 then "Standard dosing expected to be effective"
           else "Consider alternative medications or dose adjustments"
         evidence_level := "Moderate" }] }

/-- AlleleComparator::compare from src/analysis.rs lines 33-42. -/
def AlleleComparator.compare (patient : ParsedGeneticData)
    (comparisons : List ParsedGeneticData) :
    Except String (List PharmacogenomicResult) :=
  collect_results (fun sample => .ok (AlleleComparator.compare_sample patient sample))
    comparisons

/-- Organ compatibility checker state, from src/analysis.rs. -/
structure OrganCompatibilityChecker where
  target_organ : Option OrganType
deriving DecidableEq, Repr

/-- OrganCompatibilityChecker::calculate_hla_matching from
src/analysis.rs lines 175-199: a fixed synthetic tally, independent of
both samples. -/
def OrganCompatibilityChecker.calculate_hla_matching
    (_checker : OrganCompatibilityChecker)
    (_patient _sample : ParsedGeneticData) : HLATypingResult :=
  { a_matches := 2, b_matches := 2, dr_matches := 2, dq_matches := 1,
    dp_matches := 1, total_matches := 8, mismatch_count := 2 }

/-- OrganCompatibilityChecker::check_blood_type_compatibility from
src/analysis.rs lines 192-199: always true. -/
def OrganCompatibilityChecker.check_blood_type_compatibility
    (_checker : OrganCompatibilityChecker)
    (_patient _sample : ParsedGeneticData) : Bool :=
  true

/-- OrganCompatibilityChecker::calculate_compatibility_score from
src/analysis.rs lines 201-212. -/
def OrganCompatibilityChecker.calculate_compatibility_score
    (_checker : OrganCompatibilityChecker)
    (hla_matches : HLATypingResult) (blood_type_compatible : Bool) : ℚ :=
  let hla_score : ℚ := (hla_matches.total_matches : ℚ) / 12
  let blood_score : ℚ := if blood_type_compatible then 1 else 0
  0.8 * hla_score + 0.2 * blood_score

/-- The crossmatch banding applied to the compatibility score inside
OrganCompatibilityChecker::check_sample, src/analysis.rs lines 141-147. -/
def OrganCompatibilityChecker.crossmatch_of_score (score : ℚ) : CrossmatchResult :=
  if score > 0.8 then .Compatible
  else if score > 0.6 then .RequiresFurtherTesting
  else .Incompatible

/-- OrganCompatibilityChecker::generate_recommendations from
src/analysis.rs lines 214-240. -/
def OrganCompatibilityChecker.generate_recommendations
    (_checker : OrganCompatibilityChecker)
    (compatibility_score : ℚ) (hla_matches : HLATypingResult) : List String :=
  (if compatibility_score > 0.8 then
    ["High compatibility - suitable candidate for transplantation"]
   else if compatibility_score > 0.6 then
    ["Moderate compatibility - further testing recommended"]
   else
    ["Low compatibility - not recommended for transplantation"]) ++
  (if hla_matches.mismatch_count > 3 then
    ["High number of HLA mismatches may increase rejection risk"]
   else []) ++
  ["Consult with transplant team for clinical evaluation"]

/-- The organ label match on target_organ inside check_sample,
src/analysis.rs lines 152-162. -/
def OrganCompatibilityChecker.organ_name (checker : OrganCompatibilityChecker) : String :=
  match checker.target_organ with
  | some .Kidney => "Kidney"
  | some .Liver => "Liver"
  | some .Heart => "Heart"
  | some .Lung => "Lung"
  | some .Pancreas => "Pancreas"
  | some .BoneMarrow => "Bone Marrow"
  | some .Cornea => "Cornea"
  | some .Skin => "Skin"
  | none => "Multi-organ"

/-- OrganCompatibilityChecker::check_sample from src/analysis.rs lines
125-173; infallible in the source, the Ok wrap is at the entry point. -/
def OrganCompatibilityChecker.check_sample (checker : OrganCompatibilityChecker)
    (patient sample : ParsedGeneticData) : OrganCompatibilityResult :=
  let hla_matches := checker.calculate_hla_matching patient sample
  let blood_type_compatible := checker.check_blood_type_compatibility patient sample
  let compatibility_score :=
    checker.calculate_compatibility_score hla_matches blood_type_compatible
  let crossmatch_result := OrganCompatibilityChecker.crossmatch_of_score compatibility_score
  let recommendations := checker.generate_recommendations compatibility_score hla_matches
  { sample_id := sample.metadata.sample_id
    organ := checker.organ_name
    compatibility_score := compatibility_score
    hla_matches := hla_matches
    blood_type_compatible := blood_type_compatible
    crossmatch_result := crossmatch_result
    recommendations := recommendations }

/-- OrganCompatibilityChecker::check from src/analysis.rs lines 114-123. -/
def OrganCompatibilityChecker.check (checker : OrganCompatibilityChecker)
    (patient : ParsedGeneticData) (comparisons : List ParsedGeneticData) :
    Except String (List OrganCompatibilityResult) :=
  collect_results (fun sample => .ok (checker.check_sample patient sample)) comparisons

/-- DiseaseAnalyzer::identify_disease_variants from src/analysis.rs lines
289-334: scan the patient variants for the fixed risk-marker rsids. -/
def DiseaseAnalyzer.identify_disease_variants (patient _sample : ParsedGeneticData) :
    List DiseaseVariant :=
  patient.variants.flatMap fun cv =>
    match cv.2.rsid with
    | some r =>
      if r = "rs429358" ∨ r = "rs7412" then
        [{ disease := "Alzheimer\x27s Disease"
           rsid := r
           chromosome := cv.1.chromosome
           position := cv.1.position
           risk_allele := cv.2.reference_allele
           odds_ratio := some 2.5
           risk_category := .High
           confidence := .Definitive }]
      else if r = "rs6025" then
        [{ disease := "Thrombophilia"
           rsid := r
           chromosome := cv.1.chromosome
           position := cv.1.position
           risk_allele := cv.2.reference_allele
           odds_ratio := some 5
           risk_category := .High
           confidence := .Definitive }]
      else []
    | none => []

/-- DiseaseAnalyzer::calculate_risk_score from src/analysis.rs lines
336-349. -/
def DiseaseAnalyzer.calculate_risk_score (variants : List DiseaseVariant) : ℚ :=
  variants.foldl
    (fun acc variant =>
      let weight : ℚ :=
        match variant.risk_category with
        | .High => 3
        | .Moderate => 2
        | .Low => 1
        | .Protective => -1
        | .Unknown => 0
      let odds := variant.odds_ratio.getD 1
      acc + weight * odds)
    0

/-- DiseaseAnalyzer::determine_risk_level from src/analysis.rs lines
351-360. -/
def DiseaseAnalyzer.determine_risk_level (risk_score : ℚ) : RiskLevel :=
  if risk_score > 10 then .VeryHigh
  else if risk_score > 5 then .High
  else if risk_score > 2 then .Moderate
  else if risk_score > 0.5 then .Low
  else .VeryLow

/-- DiseaseAnalyzer::generate_disease_recommendations from
src/analysis.rs lines 362-384. -/
def DiseaseAnalyzer.generate_disease_recommendations
    (variants : List DiseaseVariant) : List String :=
  if variants ≠ [] then
    ["Genetic variants associated with increased disease risk detected",
     "Consult with a genetic counselor for personalized risk assessment",
     "Consider lifestyle modifications to mitigate environmental risk factors"]
  else
    ["No high-risk disease variants detected",
     "Continue routine health screenings as recommended by your physician"]

/-- DiseaseAnalyzer::analyze_sample from src/analysis.rs lines 262-287;
infallible in the source, the Ok wrap is at the entry point. -/
def DiseaseAnalyzer.analyze_sample (patient sample : ParsedGeneticData) :
    DiseaseRiskResult :=
  let disease_variants := DiseaseAnalyzer.identify_disease_variants patient sample
  let risk_score := DiseaseAnalyzer.calculate_risk_score disease_variants
  let risk_level := DiseaseAnalyzer.determine_risk_level risk_score
  let recommendations := DiseaseAnalyzer.generate_disease_recommendations disease_variants
  { sample_id := sample.metadata.sample_id
    disease := "Cardiovascular Disease"
    risk_level := risk_level
    risk_score := risk_score
    variants_found := disease_variants
    recommendations := recommendations }

/-- DiseaseAnalyzer::analyze from src/analysis.rs lines 251-260. -/
def DiseaseAnalyzer.analyze (patient : ParsedGeneticData)
    (comparisons : List ParsedGeneticData) :
    Except String (List DiseaseRiskResult) :=
  collect_results (fun sample => .ok (DiseaseAnalyzer.analyze_sample patient sample))
    comparisons

/-- Group HLA alleles by gene name in first-insertion order, modelling
the HashMap-of-Vec grouping in HLAAnalyzer::calculate_match_score. The
source iterates the groups in arbitrary HashMap order; the resulting
score is a sum over groups, so any canonical order yields the same
value. -/
def group_by_gene (alleles : List HLAAllele) : List (String × List HLAAllele) :=
  alleles.foldl
    (fun groups a =>
      if groups.any (fun g => g.1 == a.gene) then
        groups.map fun g => if g.1 == a.gene then (g.1, g.2 ++ [a]) else g
      else groups ++ [(a.gene, [a])])
    []

/-- HLAAnalyzer::calculate_match_score from src/analysis.rs lines
454-498: per overlapping gene, the compared-pair total grows by the
smaller group size and each patient allele contributes at most one exact
allele-string match. -/
def HLAAnalyzer.calculate_match_score (patient_hla sample_hla : List HLAAllele) : ℚ :=
  let patient_groups := group_by_gene patient_hla
  let sample_groups := group_by_gene sample_hla
  let tally :=
    patient_groups.foldl
      (fun (acc : ℕ × ℕ) pg =>
        match sample_groups.find? (fun sg => sg.1 == pg.1) with
        | some sg =>
          let total := acc.2 + min pg.2.length sg.2.length
          let matched :=
            acc.1 + (pg.2.countP fun pa => sg.2.any fun sa => sa.allele == pa.allele)
          (matched, total)
        | none => acc)
      (0, 0)
  if tally.2 > 0 then (tally.1 : ℚ) / (tally.2 : ℚ) else 0

/-- HLAAnalyzer::analyze_sample from src/analysis.rs lines 406-452;
infallible in the source, the Ok wrap is at the entry point. -/
def HLAAnalyzer.analyze_sample (patient sample : ParsedGeneticData) : HLAMatchResult :=
  let sample_hla := sample.hla_alleles
  { sample_id := sample.metadata.sample_id
    hla_a := sample_hla.filter fun a => a.gene == "HLA-A"
    hla_b := sample_hla.filter fun a => a.gene == "HLA-B"
    hla_c := sample_hla.filter fun a => a.gene == "HLA-C"
    hla_drb1 := sample_hla.filter fun a => a.gene == "HLA-DRB1"
    hla_dqb1 := sample_hla.filter fun a => a.gene == "HLA-DQB1"
    hla_dpb1 := sample_hla.filter fun a => a.gene == "HLA-DPB1"
    match_score := HLAAnalyzer.calculate_match_score patient.hla_alleles sample_hla }

/-- HLAAnalyzer::analyze from src/analysis.rs lines 395-404. -/
def HLAAnalyzer.analyze (patient : ParsedGeneticData)
    (comparisons : List ParsedGeneticData) :
    Except String (List HLAMatchResult) :=
  collect_results (fun sample => .ok (HLAAnalyzer.analyze_sample patient sample))
    comparisons

/-- IBD detector configuration, from src/analysis.rs lines 502-513. -/
structure IBDDetector where
  min_cm : ℚ
  min_segment_length : ℕ
deriving DecidableEq, Repr

/-- IBDDetector::create_segment from src/analysis.rs lines 613-633.
The base-pair span is the u64 difference end minus start, taken modulo
2 to the 64 as the release build wraps on underflow; the centimorgan
length is that span divided by one million. -/
def IBDDetector.create_segment (_det : IBDDetector) (chromosome : String)
    (start stop snp_count : ℕ) : IBDSegment :=
  let length_bp : ℚ := ((((stop : ℤ) - (start : ℤ)).emod (2 ^ 64) : ℤ) : ℚ)
  let length_cm := length_bp / 1000000
  { chromosome := chromosome
    start := start
    stop := stop
    length_cm := length_cm
    snp_count := snp_count
    start_position_bp := start
    end_position_bp := stop }

/-- One step of the segment-walking loop in
IBDDetector::find_ibd_segments, src/analysis.rs lines 568-601. The state
is the closed segments so far plus the optional running segment
(chromosome, start, end, count). -/
def IBDDetector.segment_step (det : IBDDetector)
    (sample : ParsedGeneticData)
    (st : List IBDSegment × Option (String × ℕ × ℕ × ℕ))
    (cv : Coordinate × Variant) :
    List IBDSegment × Option (String × ℕ × ℕ × ℕ) :=
  match sample.get_variant cv.1.chromosome cv.1.position with
  | none => st
  | some sample_variant =>
    if cv.2.genotype.is_compatible sample_variant.genotype then
      match st.2 with
      | none => (st.1, some (cv.1.chromosome, cv.1.position, cv.1.position, 1))
      | some (chr, start, stop, count) =>
        if chr = cv.1.chromosome ∧ cv.1.position ≤ stop + 1000000 then
          (st.1, some (chr, start, cv.1.position, count + 1))
        else
          let closed :=
            if count ≥ det.min_segment_length then
              st.1 ++ [det.create_segment chr start stop count]
            else st.1
          (closed, some (cv.1.chromosome, cv.1.position, cv.1.position, 1))
    else st

/-- IBDDetector::find_ibd_segments from src/analysis.rs lines 556-611:
walk the patient variants in stored order, extend or close the running
segment, and flush the final segment when input ends. -/
def IBDDetector.find_ibd_segments (det : IBDDetector)
    (patient sample : ParsedGeneticData) : List IBDSegment :=
  let final := patient.variants.foldl (det.segment_step sample) ([], none)
  match final.2 with
  | none => final.1
  | some (chr, start, stop, count) =>
    if count ≥ det.min_segment_length then
      final.1 ++ [det.create_segment chr start stop count]
    else final.1

/-- IBDDetector::calculate_confidence from src/analysis.rs lines 635-641. -/
def IBDDetector.calculate_confidence (_det : IBDDetector)
    (total_shared_cm : ℚ) (segment_count : ℕ) : ℚ :=
  let cm_confidence := min (total_shared_cm / 500) 1
  let segment_confidence := min ((segment_count : ℚ) / 50) 1
  (cm_confidence + segment_confidence) / 2

/-- IBDDetector::detect_sample from src/analysis.rs lines 526-554;
infallible in the source, the Ok wrap is at the entry point. -/
def IBDDetector.detect_sample (det : IBDDetector)
    (patient sample : ParsedGeneticData) : IBDSegmentResult :=
  let segments := det.find_ibd_segments patient sample
  let total_shared_cm := (segments.map IBDSegment.length_cm).sum
  let segment_count := segments.length
  let largest_segment_cm := segments.foldl (fun acc s => max acc s.length_cm) 0
  let predicted_relationship := RelationshipPrediction.from_shared_cm total_shared_cm
  let confidence := det.calculate_confidence total_shared_cm segment_count
  { sample_id := sample.metadata.sample_id
    total_shared_cm := total_shared_cm
    segment_count := segment_count
    largest_segment_cm := largest_segment_cm
    segments := segments
    predicted_relationship := predicted_relationship
    confidence := confidence }

/-- IBDDetector::detect from src/analysis.rs lines 515-524. -/
def IBDDetector.detect (det : IBDDetector) (patient : ParsedGeneticData)
    (comparisons : List ParsedGeneticData) :
    Except String (List IBDSegmentResult) :=
  collect_results (fun sample => .ok (det.detect_sample patient sample)) comparisons

/-- Lookup in the column mapping, modelling HashMap::get of
std::collections. -/
def lookup_column (m : List (String × ℕ)) (k : String) : Option ℕ :=
  (m.find? fun p => p.1 == k).map Prod.snd

/-- Insert with overwrite, modelling HashMap::insert of std::collections.
Only lookups observe the mapping, so the association-list order is
immaterial. -/
def insert_column (m : List (String × ℕ)) (k : String) (v : ℕ) : List (String × ℕ) :=
  if m.any (fun p => p.1 == k) then
    m.map fun p => if p.1 == k then (k, v) else p
  else m ++ [(k, v)]

/-- TsvParser::map_columns from src/parsers/tsv_parser.rs lines 60-96:
case-insensitive header mapping. Note that the source maps the header
names allele1 and allele2 onto the key genotype, and never inserts keys
named allele1 or allele2. -/
def TsvParser.map_columns (headers : List String) : Except String (List (String × ℕ)) :=
  let mapping :=
    headers.enum.foldl
      (fun m (ih : ℕ × String) =>
        match str_lower (str_trim ih.2) with
        | "chromosome" | "chr" | "chrom" => insert_column m "chromosome" ih.1
        | "position" | "pos" | "bp" => insert_column m "position" ih.1
        | "rsid" | "rs#" | "snp" => insert_column m "rsid" ih.1
        | "genotype" | "gt" | "allele1" | "allele2" => insert_column m "genotype" ih.1
        | "reference" | "ref" => insert_column m "reference" ih.1
        | "alternate" | "alt" => insert_column m "alternate" ih.1
        | _ => m)
      []
  if (lookup_column mapping "chromosome").isNone ∨
     (lookup_column mapping "position").isNone then
    .error "Required columns (chromosome, position) not found"
  else .ok mapping

/-- Split a string on a delimiter character, as the str split call in
TsvParser::parse_data_line. -/
def split_delim (delimiter : Char) (s : String) : List String :=
  (split_on_pred (fun c => c == delimiter) s.data).map String.mk

/-- TsvParser::parse_data_line from src/parsers/tsv_parser.rs lines
100-208: extract the mapped fields from one data line and add the
variant to the sample container. -/
def TsvParser.parse_data_line (line : String) (delimiter : Char)
    (column_mapping : List (String × ℕ)) (data : ParsedGeneticData) :
    Except String ParsedGeneticData :=
  let line := str_trim line
  if line = "" then .ok data
  else
    let parts := split_delim delimiter line
    match lookup_column column_mapping "chromosome" with
    | none => .error "Chromosome column not found"
    | some chromosome_idx =>
      match lookup_column column_mapping "position" with
      | none => .error "Position column not found"
      | some position_idx =>
        if chromosome_idx ≥ parts.length ∨ position_idx ≥ parts.length then
          .error "Line has insufficient columns"
        else
          let chromosome := normalize_chromosome (parts.getD chromosome_idx "")
          match str_to_nat? (parts.getD position_idx "") with
          | none => .error ("Invalid position: " ++ parts.getD position_idx "")
          | some position =>
            let rsid :=
              match lookup_column column_mapping "rsid" with
              | some idx =>
                if idx < parts.length ∧ parts.getD idx "" ≠ "." ∧ parts.getD idx "" ≠ ""
                then some (parts.getD idx "") else none
              | none => none
            let reference :=
              match lookup_column column_mapping "reference" with
              | some idx => if idx < parts.length then parts.getD idx "" else ""
              | none => ""
            let alternate :=
              match lookup_column column_mapping "alternate" with
              | some idx => if idx < parts.length then parts.getD idx "" else ""
              | none => ""
            let genotype :=
              match lookup_column column_mapping "genotype" with
              | some genotype_idx =>
                if genotype_idx < parts.length then
                  parse_genotype (parts.getD genotype_idx "") reference [alternate]
                else Genotype.NoCall
              | none =>
                let allele1 :=
                  match lookup_column column_mapping "allele1" with
                  | some idx =>
                    if idx < parts.length then some (parts.getD idx "") else none
                  | none => none
                let allele2 :=
                  match lookup_column column_mapping "allele2" with
                  | some idx =>
                    if idx < parts.length then some (parts.getD idx "") else none
                  | none => none
                match allele1, allele2 with
                | some a1, some a2 => parse_genotype (a1 ++ a2) reference [alternate]
                | _, _ => Genotype.NoCall
            let variant : Variant :=
              { chromosome := chromosome
                position := position
                rsid := rsid
                reference_allele := reference
                alternate_alleles := if alternate = "" then [] else [alternate]
                genotype := genotype
                quality := none
                filter := none
                info := [] }
            .ok (data.add_variant variant)

/-- The parsing stage of run_analysis from src/main.rs lines 504-542,
parameterised by the parser (FileParser lives in the absent
src/parsers/mod.rs). The patient file is parsed first and a failure
propagates; each comparison file is parsed, failures are dropped from
the comparison set and collected as diagnostics (the warn log), and the
successes are kept in input order. -/
def run_analysis_parse (parse : String → Except String ParsedGeneticData)
    (patient_path : String) (compare_paths : List String) :
    Except String (ParsedGeneticData × List ParsedGeneticData × List (String × String)) :=
  match parse patient_path with
  | .error e => .error e
  | .ok patient_data =>
    let comparison_data := compare_paths.filterMap fun p => (parse p).toOption
    let diagnostics := compare_paths.filterMap fun p =>
      match parse p with
      | .error e => some (p, e)
      | .ok _ => none
    .ok (patient_data, comparison_data, diagnostics)

-- Concrete inputs used by the claims and witnesses.

/-- Metadata for a concrete sample. -/
def mk_metadata (id : String) : SampleMetadata :=
  { sample_id := id
    source_file := id
    file_format := .TSV
    genome_build := "GRCh38"
    sequencing_platform := none
    call_rate := none
    heterozygosity := none }

/-- A concrete variant with the given coordinate and genotype. -/
def mk_variant (chr : String) (pos : ℕ) (g : Genotype) : Variant :=
  { chromosome := chr
    position := pos
    rsid := none
    reference_allele := ""
    alternate_alleles := []
    genotype := g
    quality := none
    filter := none
    info := [] }

/-- Patient of the IBD scenario: heterozygous calls on chromosome 1 at
positions 1000, 500000 and 900000, in insertion order. -/
def ibd_patient : ParsedGeneticData :=
  { metadata := mk_metadata "patient"
    variants :=
      [(⟨"1", 1000⟩, mk_variant "1" 1000 .Heterozygous),
       (⟨"1", 500000⟩, mk_variant "1" 500000 .Heterozygous),
       (⟨"1", 900000⟩, mk_variant "1" 900000 .Heterozygous)]
    hla_alleles := [] }

/-- Comparison sample of the IBD scenario: compatible heterozygous calls
at exactly the same three coordinates. -/
def ibd_sample : ParsedGeneticData :=
  { metadata := mk_metadata "sample"
    variants :=
      [(⟨"1", 1000⟩, mk_variant "1" 1000 .Heterozygous),
       (⟨"1", 500000⟩, mk_variant "1" 500000 .Heterozygous),
       (⟨"1", 900000⟩, mk_variant "1" 900000 .Heterozygous)]
    hla_alleles := [] }

/-- A patient holding one variant carrying the APOE risk rsid. -/
def apoe_patient : ParsedGeneticData :=
  { metadata := mk_metadata "apoe"
    variants :=
      [(⟨"19", 44908684⟩,
        { mk_variant "19" 44908684 .Heterozygous with
            rsid := some "rs429358", reference_allele := "T" })]
    hla_alleles := [] }

/-- An empty comparison sample. -/
def empty_sample : ParsedGeneticData :=
  { metadata := mk_metadata "empty"
    variants := []
    hla_alleles := [] }

/-- A toy parser for the run_analysis witness: the path bad fails, every
other path parses to the APOE patient. -/
def toy_parse (p : String) : Except String ParsedGeneticData :=
  if p = "bad" then .error "boom" else .ok apoe_patient

/-- Spec-side predicate for claim C4: the coordinate resolves in both
variant maps and the two genotypes are compatible. -/
def coord_compatible (patient sample : ParsedGeneticData) (c : Coordinate) : Bool :=
  match patient.get_variant c.chromosome c.position,
        sample.get_variant c.chromosome c.position with
  | some pv, some sv => pv.genotype.is_compatible sv.genotype
  | _, _ => false

/-- Spec-side count for claim C4, following the spec words rather than
the implementation: the number of coordinates present in both the
patient and the sample variant maps whose two genotypes are compatible. -/
def spec_shared_compatible_count (patient sample : ParsedGeneticData) : ℕ :=
  ((patient.variants.map Prod.fst).toFinset.filter
    fun c => coord_compatible patient sample c = true).card

-- Helper lemmas for the token grammar.

theorem split_on_pred_ne_nil (p : Char → Bool) (l : List Char) :
    split_on_pred p l ≠ [] := by
  cases l with
  | nil => simp [split_on_pred]
  | cons c rest =>
    simp only [split_on_pred]
    by_cases h : p c
    · simp [h]
    · simp only [h]
      cases hrec : split_on_pred p rest <;> simp

theorem split_on_pred_of_no_sep (p : Char → Bool) (l : List Char)
    (h : l.any p = false) : split_on_pred p l = [l] := by
  induction l with
  | nil => rfl
  | cons c rest ih =>
    simp only [List.any_cons, Bool.or_eq_false_iff] at h
    simp only [split_on_pred, h.1, Bool.false_eq_true, if_false]
    rw [ih h.2]

theorem any_sep_of_split_pair (s : String) (a b : String)
    (h : split_seps s = [a, b]) : s.data.any sepChar = true := by
  by_contra hna
  have hfalse : s.data.any sepChar = false := by
    cases hval : s.data.any sepChar
    · rfl
    · exact absurd hval hna
  have := split_on_pred_of_no_sep sepChar s.data hfalse
  rw [split_seps, this] at h
  simp at h

/-- Claim C1: Genotype is_compatible follows the spec truth table: NoCall
on either side is compatible, the listed homozygous and heterozygous
pairings are compatible, every other combination defaults to compatible,
and in particular every homozygous genotype is self-compatible. -/
theorem claim_C1 :
    (∀ b, Genotype.is_compatible .NoCall b = true) ∧
    (∀ a, Genotype.is_compatible a .NoCall = true) ∧
    Genotype.is_compatible .HomozygousReference .HomozygousReference = true ∧
    Genotype.is_compatible .HomozygousReference .Heterozygous = true ∧
    Genotype.is_compatible .Heterozygous .HomozygousReference = true ∧
    Genotype.is_compatible .HomozygousAlternate .HomozygousAlternate = true ∧
    Genotype.is_compatible .HomozygousAlternate .Heterozygous = true ∧
    Genotype.is_compatible .Heterozygous .HomozygousAlternate = true ∧
    Genotype.is_compatible .Heterozygous .Heterozygous = true ∧
    (∀ a b, Genotype.is_compatible a b = true) ∧
    (∀ g, g = Genotype.HomozygousReference ∨ g = Genotype.HomozygousAlternate →
      Genotype.is_compatible g g = true) :=
  ⟨fun b => by cases b <;> rfl,
   fun a => by cases a <;> rfl,
   rfl, rfl, rfl, rfl, rfl, rfl, rfl,
   fun a b => by cases a <;> cases b <;> rfl,
   fun g _ => by cases g <;> rfl⟩

/-- Witness for claim C1 at a concrete homozygous genotype. -/
theorem claim_C1_witness :
    Genotype.is_compatible .HomozygousReference .HomozygousReference = true :=
  claim_C1.2.2.2.2.2.2.2.2.2.2 Genotype.HomozygousReference (Or.inl rfl)

/-- Claim C2: on the concrete scenario with compatible genotypes at
chromosome 1 positions 1000, 500000 and 900000 and minimum segment
coordinate count 2, the detector produces exactly one segment from 1000
to 900000 whose centimorgan length is the base-pair span divided by one
million, namely 0.899. -/
theorem claim_C2 :
    IBDDetector.find_ibd_segments ⟨7, 2⟩ ibd_patient ibd_sample =
      [{ chromosome := "1", start := 1000, stop := 900000, length_cm := 899 / 1000,
         snp_count := 3, start_position_bp := 1000, end_position_bp := 900000 }] ∧
    (899 / 1000 : ℚ) = ((900000 : ℚ) - 1000) / 1000000 := by
  have hseg : IBDDetector.find_ibd_segments ⟨7, 2⟩ ibd_patient ibd_sample =
      [IBDDetector.create_segment ⟨7, 2⟩ "1" 1000 900000 3] := rfl
  constructor
  · rw [hseg]
    simp only [IBDDetector.create_segment, List.cons.injEq, and_true,
      IBDSegment.mk.injEq, true_and]
    norm_num [Int.emod_eq_of_lt]
  · norm_num

/-- Claim C3: from_string classifies raw genotype tokens by the spec
rules: the exact token matches, the two-part fallback (equal non-zero
alleles homozygous alternate, exactly one zero allele heterozygous, two
distinct non-zero alleles heterozygous alt-alt), and Partial for
non-exact tokens with no separator. -/
theorem claim_C3 :
    (Genotype.from_string "0/0" = .HomozygousReference ∧
     Genotype.from_string "0|0" = .HomozygousReference ∧
     Genotype.from_string "AA" = .HomozygousReference ∧
     Genotype.from_string "1/1" = .HomozygousAlternate ∧
     Genotype.from_string "1|1" = .HomozygousAlternate ∧
     Genotype.from_string "BB" = .HomozygousAlternate ∧
     Genotype.from_string "0/1" = .Heterozygous ∧
     Genotype.from_string "0|1" = .Heterozygous ∧
     Genotype.from_string "1/0" = .Heterozygous ∧
     Genotype.from_string "1|0" = .Heterozygous ∧
     Genotype.from_string "AB" = .Heterozygous ∧
     Genotype.from_string "BA" = .Heterozygous ∧
     Genotype.from_string "" = .NoCall ∧
     Genotype.from_string "./." = .NoCall ∧
     Genotype.from_string ".|." = .NoCall) ∧
    (∀ s a b, s ∉ exact_tokens → split_seps s = [a, b] →
      (a = b → a ≠ "0" → Genotype.from_string s = .HomozygousAlternate) ∧
      (a ≠ b → (a = "0" ∨ b = "0") → Genotype.from_string s = .Heterozygous) ∧
      (a ≠ b → a ≠ "0" → b ≠ "0" → Genotype.from_string s = .HeterozygousAltAlt)) ∧
    (∀ s, s ∉ exact_tokens → s.data.any sepChar = false →
      Genotype.from_string s = .Partial) := by
  refine ⟨by decide, ?_, ?_⟩
  · intro s a b hne hsplit
    have hany : s.data.any sepChar = true := any_sep_of_split_pair s a b hsplit
    simp only [exact_tokens, List.mem_cons, List.not_mem_nil, or_false, not_or] at hne
    obtain ⟨h1, h2, h3, h4, h5, h6, h7, h8, h9, h10, h11, h12, h13, h14, h15⟩ := hne
    have hred : Genotype.from_string s =
        (if a = b then
          if a = "0" then Genotype.HomozygousReference else Genotype.HomozygousAlternate
         else if a = "0" ∨ b = "0" then Genotype.Heterozygous
         else Genotype.HeterozygousAltAlt) := by
      unfold Genotype.from_string
      rw [if_neg (by simp [h1, h2, h3]), if_neg (by simp [h4, h5, h6]),
        if_neg (by simp [h7, h8, h9, h10, h11, h12]),
        if_neg (by simp [h13, h14, h15]), if_pos hany, hsplit]
    refine ⟨?_, ?_, ?_⟩
    · intro hab ha0
      subst hab
      rw [hred, if_pos rfl, if_neg ha0]
    · intro hab h0
      rw [hred, if_neg hab, if_pos h0]
    · intro hab ha0 hb0
      rw [hred, if_neg hab, if_neg (by simp [ha0, hb0])]
  · intro s hne hnosep
    simp only [exact_tokens, List.mem_cons, List.not_mem_nil, or_false, not_or] at hne
    obtain ⟨h1, h2, h3, h4, h5, h6, h7, h8, h9, h10, h11, h12, h13, h14, h15⟩ := hne
    unfold Genotype.from_string
    rw [if_neg (by simp [h1, h2, h3]), if_neg (by simp [h4, h5, h6]),
      if_neg (by simp [h7, h8, h9, h10, h11, h12]),
      if_neg (by simp [h13, h14, h15]), if_neg (by simp [hnosep])]

/-- Witness for claim C3 on concrete fallback tokens. -/
theorem claim_C3_witness :
    Genotype.from_string "2/2" = .HomozygousAlternate ∧
    Genotype.from_string "0/2" = .Heterozygous ∧
    Genotype.from_string "1/2" = .HeterozygousAltAlt ∧
    Genotype.from_string "A" = .Partial :=
  ⟨(claim_C3.2.1 "2/2" "2" "2" (by decide) (by decide)).1 rfl (by decide),
   (claim_C3.2.1 "0/2" "0" "2" (by decide) (by decide)).2.1 (by decide) (Or.inl rfl),
   (claim_C3.2.1 "1/2" "1" "2" (by decide) (by decide)).2.2 (by decide) (by decide)
     (by decide),
   claim_C3.2.2 "A" (by decide) (by decide)⟩

/-- With unique coordinate keys, lookup by coordinate fields finds
exactly the stored entry. -/
theorem find?_coord_of_mem (l : List (Coordinate × Variant)) (cc : String) (cp : ℕ)
    (v : Variant) (hnd : (l.map Prod.fst).Nodup) (hmem : (⟨cc, cp⟩, v) ∈ l) :
    (l.find? fun cv => cv.1.chromosome == cc && cv.1.position == cp) =
      some (⟨cc, cp⟩, v) := by
  induction l with
  | nil => simp at hmem
  | cons hd tl ih =>
    obtain ⟨⟨hc, hp⟩, hv⟩ := hd
    simp only [List.map_cons, List.nodup_cons] at hnd
    rcases List.mem_cons.mp hmem with heq | htl
    · rw [← heq]
      exact List.find?_cons_of_pos _ (by simp)
    · have hne : (⟨hc, hp⟩ : Coordinate) ≠ ⟨cc, cp⟩ := by
        intro h
        exact hnd.1 (h ▸ List.mem_map.mpr ⟨_, htl, rfl⟩)
      refine (List.find?_cons_of_neg _ ?_).trans (ih hnd.2 htl)
      intro hpred
      simp only [Bool.and_eq_true, beq_iff_eq] at hpred
      exact hne (by simp [hpred.1, hpred.2])

/-- With unique coordinate keys, get_variant returns the stored variant. -/
theorem get_variant_of_mem (d : ParsedGeneticData) (c : Coordinate) (v : Variant)
    (hnd : (d.variants.map Prod.fst).Nodup) (hmem : (c, v) ∈ d.variants) :
    d.get_variant c.chromosome c.position = some v := by
  obtain ⟨cc, cp⟩ := c
  unfold ParsedGeneticData.get_variant
  rw [find?_coord_of_mem d.variants cc cp v hnd hmem]
  rfl

/-- Claim C4: for patient maps with unique coordinate keys, the allele
comparator counts exactly the coordinates present in both variant maps
with compatible genotypes, the similarity is that count divided by
max(1, patient variant count), the phenotype label follows the 0.9 and
0.7 thresholds, and exactly one clinical annotation is emitted. -/
theorem claim_C4 (patient sample : ParsedGeneticData)
    (hnd : (patient.variants.map Prod.fst).Nodup) :
    AlleleComparator.count_shared_variants patient sample =
      spec_shared_compatible_count patient sample ∧
    (AlleleComparator.compare_sample patient sample).activity_score =
      (AlleleComparator.count_shared_variants patient sample : ℚ) /
        ((max patient.variants.length 1 : ℕ) : ℚ) ∧
    (AlleleComparator.compare_sample patient sample).phenotype =
      (if (AlleleComparator.compare_sample patient sample).activity_score > 0.9
       then "Extensive Metabolizer"
       else if (AlleleComparator.compare_sample patient sample).activity_score > 0.7
       then "Intermediate Metabolizer"
       else "Poor Metabolizer") ∧
    (AlleleComparator.compare_sample patient sample).clinical_annotations.length = 1 := by
  refine ⟨?_, rfl, rfl, rfl⟩
  have key : ∀ cv ∈ patient.variants,
      (match sample.get_variant cv.1.chromosome cv.1.position with
       | some sample_variant => cv.2.genotype.is_compatible sample_variant.genotype
       | none => false) = coord_compatible patient sample cv.1 := by
    intro cv hmem
    have hpv : patient.get_variant cv.1.chromosome cv.1.position = some cv.2 :=
      get_variant_of_mem patient cv.1 cv.2 hnd (by simpa using hmem)
    unfold coord_compatible
    rw [hpv]
    cases sample.get_variant cv.1.chromosome cv.1.position <;> rfl
  have hcomm :
      ((patient.variants.map Prod.fst).filter
        fun c => coord_compatible patient sample c) =
      (patient.variants.filter fun cv => coord_compatible patient sample cv.1).map
        Prod.fst := by
    rw [List.filter_map]
    rfl
  unfold AlleleComparator.count_shared_variants spec_shared_compatible_count
  calc (patient.variants.filter fun cv =>
          match sample.get_variant cv.1.chromosome cv.1.position with
          | some sample_variant => cv.2.genotype.is_compatible sample_variant.genotype
          | none => false).length
      = (patient.variants.filter
          fun cv => coord_compatible patient sample cv.1).length := by
        rw [List.filter_congr key]
    _ = ((patient.variants.filter
          fun cv => coord_compatible patient sample cv.1).map Prod.fst).length := by
        rw [List.length_map]
    _ = ((patient.variants.map Prod.fst).filter
          fun c => coord_compatible patient sample c).length := by rw [hcomm]
    _ = ((patient.variants.map Prod.fst).filter
          fun c => coord_compatible patient sample c).toFinset.card :=
        (List.toFinset_card_of_nodup (hnd.filter _)).symm
    _ = ((patient.variants.map Prod.fst).toFinset.filter
          fun c => coord_compatible patient sample c = true).card := by
        rw [List.toFinset_filter]

/-- Witness for claim C4 on the concrete IBD scenario samples. -/
theorem claim_C4_witness :
    AlleleComparator.count_shared_variants ibd_patient ibd_sample =
      spec_shared_compatible_count ibd_patient ibd_sample ∧
    (AlleleComparator.compare_sample ibd_patient ibd_sample).activity_score =
      (AlleleComparator.count_shared_variants ibd_patient ibd_sample : ℚ) /
        ((max ibd_patient.variants.length 1 : ℕ) : ℚ) ∧
    (AlleleComparator.compare_sample ibd_patient ibd_sample).phenotype =
      (if (AlleleComparator.compare_sample ibd_patient ibd_sample).activity_score > 0.9
       then "Extensive Metabolizer"
       else if (AlleleComparator.compare_sample ibd_patient ibd_sample).activity_score > 0.7
       then "Intermediate Metabolizer"
       else "Poor Metabolizer") ∧
    (AlleleComparator.compare_sample ibd_patient ibd_sample).clinical_annotations.length
      = 1 :=
  claim_C4 ibd_patient ibd_sample (by decide)

/-- Claim C5: the organ compatibility score is 0.8 times the HLA fraction
of 12 plus 0.2 times the blood score, and the crossmatch banding sends
scores above 0.8 to Compatible, above 0.6 and at most 0.8 to
RequiresFurtherTesting, and at most 0.6 to Incompatible; check_sample
applies that banding to the computed score. -/
theorem claim_C5 (checker : OrganCompatibilityChecker) (hla : HLATypingResult)
    (blood : Bool) (score : ℚ) :
    checker.calculate_compatibility_score hla blood =
      0.8 * ((hla.total_matches : ℚ) / 12) + 0.2 * (if blood then 1 else 0) ∧
    (score > 0.8 → OrganCompatibilityChecker.crossmatch_of_score score = .Compatible) ∧
    (score > 0.6 ∧ score ≤ 0.8 →
      OrganCompatibilityChecker.crossmatch_of_score score = .RequiresFurtherTesting) ∧
    (score ≤ 0.6 → OrganCompatibilityChecker.crossmatch_of_score score = .Incompatible) ∧
    (∀ p s, (checker.check_sample p s).crossmatch_result =
      OrganCompatibilityChecker.crossmatch_of_score
        (checker.check_sample p s).compatibility_score) := by
  refine ⟨rfl, ?_, ?_, ?_, fun p s => rfl⟩
  · intro h
    unfold OrganCompatibilityChecker.crossmatch_of_score
    rw [if_pos h]
  · rintro ⟨h1, h2⟩
    unfold OrganCompatibilityChecker.crossmatch_of_score
    rw [if_neg (not_lt.mpr h2), if_pos h1]
  · intro h
    unfold OrganCompatibilityChecker.crossmatch_of_score
    rw [if_neg (not_lt.mpr (h.trans (by norm_num))), if_neg (not_lt.mpr h)]

/-- Witness for claim C5 at concrete scores in each band. -/
theorem claim_C5_witness :
    OrganCompatibilityChecker.crossmatch_of_score 0.9 = .Compatible ∧
    OrganCompatibilityChecker.crossmatch_of_score 0.7 = .RequiresFurtherTesting ∧
    OrganCompatibilityChecker.crossmatch_of_score 0.5 = .Incompatible :=
  ⟨(claim_C5 ⟨none⟩ ⟨2, 2, 2, 1, 1, 8, 2⟩ true 0.9).2.1 (by norm_num),
   (claim_C5 ⟨none⟩ ⟨2, 2, 2, 1, 1, 8, 2⟩ true 0.7).2.2.1 ⟨by norm_num, by norm_num⟩,
   (claim_C5 ⟨none⟩ ⟨2, 2, 2, 1, 1, 8, 2⟩ true 0.5).2.2.2.1 (by norm_num)⟩

/-- Claim C6: any patient variant carrying the rsid rs429358 yields an
Alzheimer disease entry with High risk category and odds ratio 2.5 in
the disease analyzer result, for every comparison sample. -/
theorem claim_C6 (patient sample : ParsedGeneticData) (c : Coordinate) (v : Variant)
    (hmem : (c, v) ∈ patient.variants) (hrs : v.rsid = some "rs429358") :
    ∃ dv ∈ (DiseaseAnalyzer.analyze_sample patient sample).variants_found,
      dv.disease = "Alzheimer\x27s Disease" ∧ dv.risk_category = .High ∧
      dv.odds_ratio = some 2.5 := by
  refine ⟨{ disease := "Alzheimer\x27s Disease", rsid := "rs429358",
            chromosome := c.chromosome, position := c.position,
            risk_allele := v.reference_allele, odds_ratio := some 2.5,
            risk_category := .High, confidence := .Definitive }, ?_, rfl, rfl, rfl⟩
  show _ ∈ DiseaseAnalyzer.identify_disease_variants patient sample
  unfold DiseaseAnalyzer.identify_disease_variants
  rw [List.mem_flatMap]
  refine ⟨(c, v), hmem, ?_⟩
  simp [hrs]

/-- Witness for claim C6 on the concrete APOE patient. -/
theorem claim_C6_witness :
    ∃ dv ∈ (DiseaseAnalyzer.analyze_sample apoe_patient empty_sample).variants_found,
      dv.disease = "Alzheimer\x27s Disease" ∧ dv.risk_category = .High ∧
      dv.odds_ratio = some 2.5 :=
  claim_C6 apoe_patient empty_sample ⟨"19", 44908684⟩
    { mk_variant "19" 44908684 .Heterozygous with
        rsid := some "rs429358", reference_allele := "T" }
    (by simp [apoe_patient]) rfl

/-- Claim C10: the organ compatibility result is constant in the genetic
data: total matches 8, mismatch count 2, blood type compatible, score
exactly 0.8 times 8 twelfths plus 0.2, that is 11 fifteenths, and
crossmatch RequiresFurtherTesting, for every checker and every pair of
samples. -/
theorem claim_C10 (checker : OrganCompatibilityChecker) (p s : ParsedGeneticData) :
    (checker.check_sample p s).hla_matches.total_matches = 8 ∧
    (checker.check_sample p s).hla_matches.mismatch_count = 2 ∧
    (checker.check_sample p s).blood_type_compatible = true ∧
    (checker.check_sample p s).compatibility_score = 0.8 * ((8 : ℚ) / 12) + 0.2 ∧
    (checker.check_sample p s).compatibility_score = 11 / 15 ∧
    (checker.check_sample p s).crossmatch_result = .RequiresFurtherTesting := by
  refine ⟨rfl, rfl, rfl, ?_, ?_, ?_⟩
  · simp only [OrganCompatibilityChecker.check_sample,
      OrganCompatibilityChecker.calculate_compatibility_score,
      OrganCompatibilityChecker.calculate_hla_matching,
      OrganCompatibilityChecker.check_blood_type_compatibility]
    norm_num
  · simp only [OrganCompatibilityChecker.check_sample,
      OrganCompatibilityChecker.calculate_compatibility_score,
      OrganCompatibilityChecker.calculate_hla_matching,
      OrganCompatibilityChecker.check_blood_type_compatibility]
    norm_num
  · simp only [OrganCompatibilityChecker.check_sample,
      OrganCompatibilityChecker.calculate_compatibility_score,
      OrganCompatibilityChecker.calculate_hla_matching,
      OrganCompatibilityChecker.check_blood_type_compatibility,
      OrganCompatibilityChecker.crossmatch_of_score]
    norm_num

/-- Collecting per-sample Ok results never fails and returns the map in
input order. -/
theorem collect_results_ok {β : Type} (g : ParsedGeneticData → β)
    (cs : List ParsedGeneticData) :
    collect_results (fun s => .ok (g s)) cs = .ok (cs.map g) := by
  induction cs with
  | nil => rfl
  | cons c rest ih => simp [collect_results, ih]

/-- Claim C9: every analyzer entry point that returns Ok yields one
result per comparison sample, in input order: the list equals the map of
the per-sample function over the comparison list. -/
theorem claim_C9 (patient : ParsedGeneticData) (comparisons : List ParsedGeneticData) :
    (∀ res, AlleleComparator.compare patient comparisons = .ok res →
      res.length = comparisons.length ∧
      res = comparisons.map (AlleleComparator.compare_sample patient)) ∧
    (∀ (checker : OrganCompatibilityChecker) res,
      checker.check patient comparisons = .ok res →
      res.length = comparisons.length ∧
      res = comparisons.map (checker.check_sample patient)) ∧
    (∀ res, DiseaseAnalyzer.analyze patient comparisons = .ok res →
      res.length = comparisons.length ∧
      res = comparisons.map (DiseaseAnalyzer.analyze_sample patient)) ∧
    (∀ res, HLAAnalyzer.analyze patient comparisons = .ok res →
      res.length = comparisons.length ∧
      res = comparisons.map (HLAAnalyzer.analyze_sample patient)) ∧
    (∀ (det : IBDDetector) res, det.detect patient comparisons = .ok res →
      res.length = comparisons.length ∧
      res = comparisons.map (det.detect_sample patient)) := by
  refine ⟨?_, ?_, ?_, ?_, ?_⟩
  · intro res h
    unfold AlleleComparator.compare at h
    rw [collect_results_ok] at h
    cases h
    exact ⟨List.length_map _ _, rfl⟩
  · intro checker res h
    unfold OrganCompatibilityChecker.check at h
    rw [collect_results_ok] at h
    cases h
    exact ⟨List.length_map _ _, rfl⟩
  · intro res h
    unfold DiseaseAnalyzer.analyze at h
    rw [collect_results_ok] at h
    cases h
    exact ⟨List.length_map _ _, rfl⟩
  · intro res h
    unfold HLAAnalyzer.analyze at h
    rw [collect_results_ok] at h
    cases h
    exact ⟨List.length_map _ _, rfl⟩
  · intro det res h
    unfold IBDDetector.detect at h
    rw [collect_results_ok] at h
    cases h
    exact ⟨List.length_map _ _, rfl⟩

/-- Witness for claim C9 on a concrete one-sample comparison list. -/
theorem claim_C9_witness :
    [AlleleComparator.compare_sample apoe_patient empty_sample].length =
      [empty_sample].length ∧
    [AlleleComparator.compare_sample apoe_patient empty_sample] =
      [empty_sample].map (AlleleComparator.compare_sample apoe_patient) :=
  (claim_C9 apoe_patient [empty_sample]).1
    [AlleleComparator.compare_sample apoe_patient empty_sample] rfl

/-- Claim C8: a patient parse failure propagates out of the run, while a
comparison parse failure only drops that file from the comparison set
and is recorded as a diagnostic, the run continuing with the remaining
successfully parsed samples in input order. -/
theorem claim_C8 (parse : String → Except String ParsedGeneticData)
    (patient_path : String) (compare_paths : List String) :
    (∀ e, parse patient_path = .error e →
      run_analysis_parse parse patient_path compare_paths = .error e) ∧
    (∀ pd, parse patient_path = .ok pd →
      run_analysis_parse parse patient_path compare_paths =
        .ok (pd, compare_paths.filterMap (fun p => (parse p).toOption),
          compare_paths.filterMap fun p =>
            match parse p with
            | .error e => some (p, e)
            | .ok _ => none) ∧
      (∀ q e, q ∈ compare_paths → parse q = .error e →
        (q, e) ∈ compare_paths.filterMap fun p =>
          match parse p with
          | .error e2 => some (p, e2)
          | .ok _ => none)) := by
  constructor
  · intro e he
    unfold run_analysis_parse
    rw [he]
  · intro pd hpd
    constructor
    · unfold run_analysis_parse
      rw [hpd]
    · intro q e hq he
      exact List.mem_filterMap.mpr ⟨q, hq, by rw [he]⟩

/-- Witness for claim C8 with a toy parser failing on one comparison
path. -/
theorem claim_C8_witness :
    run_analysis_parse toy_parse "good" ["ok1", "bad"] =
      .ok (apoe_patient,
        ["ok1", "bad"].filterMap (fun p => (toy_parse p).toOption),
        ["ok1", "bad"].filterMap fun p =>
          match toy_parse p with
          | .error e => some (p, e)
          | .ok _ => none) ∧
    ("bad", "boom") ∈ ["ok1", "bad"].filterMap fun p =>
      match toy_parse p with
      | .error e2 => some (p, e2)
      | .ok _ => none :=
  ⟨((claim_C8 toy_parse "good" ["ok1", "bad"]).2 apoe_patient rfl).1,
   ((claim_C8 toy_parse "good" ["ok1", "bad"]).2 apoe_patient rfl).2 "bad" "boom"
     (by simp) rfl⟩

/-- Claim C7: on a header with allele1 and allele2 columns and no
genotype column, map_columns maps both allele headers onto the key
genotype (last one winning) and inserts no allele1 or allele2 key, so
parse_data_line classifies the genotype from the single allele2 field
(here G, giving Partial) instead of from the concatenated two-character
pair (here AG, which classifies as Heterozygous); the
missing-required-column case is a ParseError as claimed. -/
theorem claim_C7 :
    TsvParser.map_columns ["chromosome", "position", "allele1", "allele2"] =
      .ok [("chromosome", 0), ("position", 1), ("genotype", 3)] ∧
    lookup_column [("chromosome", 0), ("position", 1), ("genotype", 3)] "allele1" =
      none ∧
    lookup_column [("chromosome", 0), ("position", 1), ("genotype", 3)] "allele2" =
      none ∧
    TsvParser.parse_data_line "1\t100\tA\tG" '\t'
        [("chromosome", 0), ("position", 1), ("genotype", 3)] empty_sample =
      .ok { empty_sample with
        variants := [(⟨"1", 100⟩,
          { chromosome := "1", position := 100, rsid := none,
            reference_allele := "", alternate_alleles := [],
            genotype := .Partial, quality := none, filter := none,
            info := [] })] } ∧
    parse_genotype "G" "" [""] = .Partial ∧
    parse_genotype ("A" ++ "G") "" [""] = .Heterozygous ∧
    Genotype.Partial ≠ Genotype.Heterozygous ∧
    TsvParser.map_columns ["rsid", "genotype"] =
      .error "Required columns (chromosome, position) not found" := by
  refine ⟨by rfl, rfl, rfl, by rfl, rfl, rfl, by decide, by rfl⟩
